import Mathlib

/-!
Verification development for the coercion-and-error core:
`src/input/input_python.rs` (strict/lax coercion of Python values) and
`src/errors/validation_exception.rs` (the `ValidationError` aggregator and
its rendering).

Python host values are embedded as the inductive `PyAny`; the pyo3
extraction / cast primitives used by the source are modelled as total Lean
functions reflecting CPython semantics (for example, `bool` is a subclass of
`int`, so `extract::<i64>()` succeeds on booleans, as the source's own
comments state).  Machine floats are idealised as exact rationals (no
rounding, overflow, NaN or infinities); machine integers are `Int` with the
explicit signed 64-bit range check that `i64::extract` performs.
-/

namespace PydanticCore

/-- Modelled from the spec: the closed enumeration of failure kinds
(`src/errors/kinds.rs` is not among the sources; the spec lists the kinds
and requires a stable machine-readable identifier and a default message per
kind). -/
inductive ErrorKind where
  | StrType
  | StrUnicode
  | BoolType
  | BoolParsing
  | IntType
  | IntParsing
  | FloatType
  | FloatParsing
  | DictType
  | DictFromMapping
  | DictFromObject
  | ListType
  | SetType
  deriving DecidableEq, Repr

/-- One host value.  `mapping` carries its key/value iteration, each step of
which may fail (modelling a Python mapping whose iteration raises);
`inst` carries the `dir()` attribute listing together with the (possibly
failing) `getattr` result for each name. -/
inductive PyAny where
  | none
  | bool (b : Bool)
  | int (i : Int)
  | float (q : Rat)
  | str (s : String)
  | bytes (bs : List Nat)
  | dict (entries : List (PyAny × PyAny))
  | mapping (items : List (Except String (PyAny × PyAny)))
  | list (xs : List PyAny)
  | tuple (xs : List PyAny)
  | set (xs : List PyAny)
  | frozenset (xs : List PyAny)
  | inst (attrs : List (String × Except String PyAny))

def i64Min : Int := -(2 ^ 63)

def i64Max : Int := 2 ^ 63 - 1

/-- pyo3 `extract::<bool>()`: succeeds only on an actual `PyBool`. -/
def extract_bool : PyAny → Option Bool
  | .bool b => some b
  | _ => Option.none

/-- pyo3 `extract::<i64>()` (`PyLong_AsLongLong`): succeeds on ints that fit
in a signed 64-bit integer and on booleans (`bool` subclasses `int`; the
source comment in `strict_int` says "bools would be cast to ints below"). -/
def extract_i64 : PyAny → Option Int
  | .int i => if i64Min ≤ i ∧ i ≤ i64Max then some i else Option.none
  | .bool b => some (if b then 1 else 0)
  | _ => Option.none

/-- pyo3 `f64::extract`: the source comment in `lax_str` notes "internally
f64:extract uses PyFloat_AsDouble", which accepts floats, ints and booleans.
Idealised: no rounding or overflow. -/
def extract_f64 : PyAny → Option Rat
  | .float q => some q
  | .int i => some (i : Rat)
  | .bool b => some (if b then 1 else 0)
  | _ => Option.none

/-- pyo3 `cast_as::<PyString>()`. -/
def cast_PyString : PyAny → Option String
  | .str s => some s
  | _ => Option.none

/-- pyo3 `cast_as::<PyBytes>()`. -/
def cast_PyBytes : PyAny → Option (List Nat)
  | .bytes bs => some bs
  | _ => Option.none

/-- pyo3 `cast_as::<PyInt>()`: succeeds on ints and on booleans (`bool` is a
subclass of `int`); this is why `lax_str` rejects booleans before this
cast. -/
def cast_PyInt : PyAny → Option PyAny
  | .int i => some (.int i)
  | .bool b => some (.bool b)
  | _ => Option.none

/-- Whether a byte is a UTF-8 continuation byte. -/
def isContByte (b : Nat) : Bool := 0x80 ≤ b && b < 0xC0

/-- Strict UTF-8 decoding, modelling Rust `std::str::from_utf8`: rejects
continuation bytes in lead position, overlong encodings, surrogates and
out-of-range code points. -/
def utf8Decode (l : List Nat) : Option (List Char) :=
  match l with
  | [] => some []
  | b :: rest =>
    if b < 0x80 then
      (utf8Decode rest).map (fun cs => Char.ofNat b :: cs)
    else if b < 0xC2 then
      Option.none
    else if b < 0xE0 then
      match rest with
      | b1 :: rest1 =>
        if isContByte b1 then
          (utf8Decode rest1).map (fun cs => Char.ofNat ((b - 0xC0) * 0x40 + (b1 - 0x80)) :: cs)
        else Option.none
      | [] => Option.none
    else if b < 0xF0 then
      match rest with
      | b1 :: b2 :: rest2 =>
        if isContByte b1 && isContByte b2 then
          let cp := (b - 0xE0) * 0x1000 + (b1 - 0x80) * 0x40 + (b2 - 0x80)
          if cp < 0x800 then Option.none
          else if 0xD800 ≤ cp ∧ cp < 0xE000 then Option.none
          else (utf8Decode rest2).map (fun cs => Char.ofNat cp :: cs)
        else Option.none
      | _ => Option.none
    else if b < 0xF5 then
      match rest with
      | b1 :: b2 :: b3 :: rest3 =>
        if isContByte b1 && isContByte b2 && isContByte b3 then
          let cp := (b - 0xF0) * 0x40000 + (b1 - 0x80) * 0x1000 + (b2 - 0x80) * 0x40 + (b3 - 0x80)
          if cp < 0x10000 then Option.none
          else if 0x110000 ≤ cp then Option.none
          else (utf8Decode rest3).map (fun cs => Char.ofNat cp :: cs)
        else Option.none
      | _ => Option.none
    else Option.none
termination_by l.length
decreasing_by all_goals (simp_all <;> omega)

/-- Decimal digits of the fraction `num / den` (with `num < den`), emitted
by long division until the remainder is zero or the fuel runs out (every
binary float has a terminating decimal expansion, so 1100 digits of fuel
suffice for any `f64` value). -/
def fracDigits (fuel : Nat) (num den : Nat) : String :=
  match fuel with
  | 0 => ""
  | f + 1 =>
    if num = 0 then ""
    else toString (num * 10 / den) ++ fracDigits f (num * 10 % den) den

/-- Rust `f64` `Display`/`to_string`, modelled on the exact-rational
idealisation: whole numbers print without a decimal point (Rust prints
`42.0f64` as "42"), otherwise integer part, '.', then the fractional
digits. -/
def floatToString (q : Rat) : String :=
  let sign := if q.num < 0 then "-" else ""
  let n := q.num.natAbs
  let d := q.den
  if n % d = 0 then sign ++ toString (n / d)
  else sign ++ toString (n / d) ++ "." ++ fracDigits 1100 (n % d) d

/-- One line error as built by the `err_val_error!` macro: a kind, an
optional message override and the echoed input value. -/
structure ValLineError where
  kind : ErrorKind
  message : Option String
  input : PyAny

/-- `ValError`: either a single line error (every error site in
`input_python.rs` builds exactly one) or an internal host error
(`as_internal`). -/
inductive ValError where
  | lineError (e : ValLineError)
  | internal

abbrev ValResult (α : Type) := Except ValError α

/-- The `err_val_error!` macro without a message override. -/
def err_val_error (kind : ErrorKind) (input : PyAny) : ValResult α :=
  .error (.lineError ⟨kind, Option.none, input⟩)

/-- `strict_str`: only an actual string is accepted. -/
def strict_str (v : PyAny) : ValResult String :=
  match cast_PyString v with
  | some s => .ok s
  | Option.none => err_val_error .StrType v

/-- `lax_str`: string, then UTF-8 decoded bytes, then booleans are rejected
(before the int and float branches, per the source comment), then int, then
float. -/
def lax_str (v : PyAny) : ValResult String :=
  match cast_PyString v with
  | some s => .ok s
  | Option.none =>
    match cast_PyBytes v with
    | some bs =>
      match utf8Decode bs with
      | some cs => .ok (String.mk cs)
      | Option.none => err_val_error .StrUnicode v
    | Option.none =>
      if (extract_bool v).isSome then
        err_val_error .StrType v
      else
        match cast_PyInt v with
        | some n =>
          match extract_i64 n with
          | some i => .ok (toString i)
          | Option.none => .error .internal
        | Option.none =>
          match extract_f64 v with
          | some q => .ok (floatToString q)
          | Option.none => err_val_error .StrType v

/-- `strict_bool`. -/
def strict_bool (v : PyAny) : ValResult Bool :=
  match extract_bool v with
  | some b => .ok b
  | Option.none => err_val_error .BoolType v

/-- `_maybe_as_string`: a string, or UTF-8 decoded bytes (failing with the
supplied unicode error kind), or `none`. -/
def _maybe_as_string (v : PyAny) (unicodeError : ErrorKind) : ValResult (Option String) :=
  match cast_PyString v with
  | some s => .ok (some s)
  | Option.none =>
    match cast_PyBytes v with
    | some bs =>
      match utf8Decode bs with
      | some cs => .ok (some (String.mk cs))
      | Option.none => err_val_error unicodeError v
    | Option.none => .ok Option.none

/-- Modelled from the spec: `str_as_bool` of `src/input/shared.rs` is not
among the sources; the spec describes a "string-derived boolean parse"
failing with `BoolParsing`. -/
def str_as_bool (v : PyAny) (s : String) : ValResult Bool :=
  if s = "true" ∨ s = "yes" ∨ s = "on" ∨ s = "1" then .ok true
  else if s = "false" ∨ s = "no" ∨ s = "off" ∨ s = "0" then .ok false
  else err_val_error .BoolParsing v

/-- Modelled from the spec: `int_as_bool` of `src/input/shared.rs` is not
among the sources; an "integer-derived boolean parse" failing with
`BoolParsing`. -/
def int_as_bool (v : PyAny) (i : Int) : ValResult Bool :=
  if i = 0 then .ok false
  else if i = 1 then .ok true
  else err_val_error .BoolParsing v

/-- `lax_bool`: bool, then string-derived parse, then integer-derived
parse. -/
def lax_bool (v : PyAny) : ValResult Bool :=
  match extract_bool v with
  | some b => .ok b
  | Option.none =>
    match _maybe_as_string v .BoolParsing with
    | .error e => .error e
    | .ok (some s) => str_as_bool v s
    | .ok Option.none =>
      match extract_i64 v with
      | some i => int_as_bool v i
      | Option.none => err_val_error .BoolType v

/-- All characters are decimal digits, and the list is non-empty. -/
def allDigits (cs : List Char) : Bool :=
  !cs.isEmpty && cs.all (fun c => c.isDigit)

/-- Value of a non-empty digit string. -/
def digitsVal (cs : List Char) : Nat :=
  cs.foldl (fun acc c => acc * 10 + (c.toNat - '0'.toNat)) 0

/-- Modelled from the spec: a strict, locale-independent decimal integer
grammar (optional sign, then digits, the whole string consumed; "must fail
(not partially succeed) on any non-numeric residue"). -/
def parseDecInt (s : String) : Option Int :=
  match s.data with
  | '-' :: rest => if allDigits rest then some (-(digitsVal rest : Int)) else Option.none
  | '+' :: rest => if allDigits rest then some (digitsVal rest : Int) else Option.none
  | cs => if allDigits cs then some (digitsVal cs : Int) else Option.none

/-- Modelled from the spec: `str_as_int` of `src/input/shared.rs` is not
among the sources; a "string-derived numeric parse" that fails with
`IntParsing` on any non-numeric residue (so "42.0" fails). -/
def str_as_int (v : PyAny) (s : String) : ValResult Int :=
  match parseDecInt s with
  | some i => .ok i
  | Option.none => err_val_error .IntParsing v

/-- Modelled from the spec: `float_as_int` of `src/input/shared.rs` is not
among the sources; "float truncation (only if fractional part is exactly
zero)", failing with `IntParsing` otherwise. -/
def float_as_int (v : PyAny) (q : Rat) : ValResult Int :=
  if q.den = 1 then .ok q.num else err_val_error .IntParsing v

/-- Modelled from the spec: the host `str.parse::<f64>()` grammar, here a
plain decimal grammar (optional sign, digits, optional fractional part). -/
def parseDecFloat (s : String) : Option Rat :=
  let core : List Char → Option Rat := fun cs =>
    match cs.splitOn '.' with
    | [ipart] => if allDigits ipart then some (digitsVal ipart : Rat) else Option.none
    | [ipart, fpart] =>
      if allDigits ipart && allDigits fpart then
        some ((digitsVal ipart : Rat) + (digitsVal fpart : Rat) / ((10 : Rat) ^ fpart.length))
      else Option.none
    | _ => Option.none
  match s.data with
  | '-' :: rest => (core rest).map (fun q => -q)
  | '+' :: rest => core rest
  | cs => core cs

/-- `strict_int`: booleans are rejected first (the source comment: "bool
check has to come before int check as bools would be cast to ints below"),
then 64-bit integer extraction. -/
def strict_int (v : PyAny) : ValResult Int :=
  if (extract_bool v).isSome then err_val_error .IntType v
  else
    match extract_i64 v with
    | some i => .ok i
    | Option.none => err_val_error .IntType v

/-- `strict_float`: booleans rejected first, then `f64` extraction (which
accepts ints, see `extract_f64`). -/
def strict_float (v : PyAny) : ValResult Rat :=
  if (extract_bool v).isSome then err_val_error .FloatType v
  else
    match extract_f64 v with
    | some q => .ok q
    | Option.none => err_val_error .FloatType v

/-- `lax_float`: `f64` extraction (floats, ints and booleans), then
string-derived parse failing with `FloatParsing`. -/
def lax_float (v : PyAny) : ValResult Rat :=
  match extract_f64 v with
  | some q => .ok q
  | Option.none =>
    match _maybe_as_string v .FloatParsing with
    | .error e => .error e
    | .ok (some s) =>
      match parseDecFloat s with
      | some q => .ok q
      | Option.none => err_val_error .FloatParsing v
    | .ok Option.none => err_val_error .FloatType v

/-- `lax_int`: 64-bit integer extraction (which accepts booleans), then
string-derived parse, then float truncation via `lax_float`. -/
def lax_int (v : PyAny) : ValResult Int :=
  match extract_i64 v with
  | some i => .ok i
  | Option.none =>
    match _maybe_as_string v .IntParsing with
    | .error e => .error e
    | .ok (some s) => str_as_int v s
    | .ok Option.none =>
      match lax_float v with
      | .ok f => float_as_int v f
      | .error _ => err_val_error .IntType v

/-- `GenericSequence`: the tagged sequence view (`src/input/generics.rs` is
not among the sources; only the variant tags matter here, each `into()`
preserves the underlying elements). -/
inductive GenericSequence where
  | list (xs : List PyAny)
  | tuple (xs : List PyAny)
  | set (xs : List PyAny)
  | frozenset (xs : List PyAny)

/-- In `input_python.rs` every successful mapping coercion wraps a `PyDict`,
so the mapping view is its ordered entry list. -/
abbrev GenericMapping := List (PyAny × PyAny)

/-- pyo3 `cast_as::<PyDict>()`. -/
def cast_PyDict : PyAny → Option (List (PyAny × PyAny))
  | .dict entries => some entries
  | _ => Option.none

/-- pyo3 `cast_as::<PyMapping>()` (`PyMapping_Check`): succeeds on dicts and
on mapping objects; yields the key/value iteration (a dict's iteration never
fails). -/
def cast_PyMapping : PyAny → Option (List (Except String (PyAny × PyAny)))
  | .dict entries => some (entries.map Except.ok)
  | .mapping items => some items
  | _ => Option.none

/-- `mapping_as_dict`: iterate the mapping's items into a fresh dict,
propagating the first iteration failure.  (The host dict's duplicate-key
overwrite is not modelled; no key occurs twice in the inputs considered.) -/
def mapping_as_dict (items : List (Except String (PyAny × PyAny))) : Except String (List (PyAny × PyAny)) :=
  match items with
  | [] => .ok []
  | .error e :: _ => .error e
  | .ok kv :: rest => (mapping_as_dict rest).map (fun d => kv :: d)

/-- Host `dir()` + `getattr` view: the attribute names of a value and the
(possibly failing) `getattr` result for each.  Only tracked for `inst`
values; the builtin attributes of primitive values are not modelled. -/
def pyDir : PyAny → List (String × Except String PyAny)
  | .inst attrs => attrs
  | _ => []

/-- The loop body of `instance_as_dict`: names beginning with an underscore
are skipped before `getattr` is even attempted; a `getattr` failure
propagates. -/
def instance_attrs_as_dict (attrs : List (String × Except String PyAny)) : Except String (List (PyAny × PyAny)) :=
  match attrs with
  | [] => .ok []
  | (k, getv) :: rest =>
    if k.startsWith "_" then instance_attrs_as_dict rest
    else
      match getv with
      | .error e => .error e
      | .ok val => (instance_attrs_as_dict rest).map (fun d => (PyAny.str k, val) :: d)

/-- `instance_as_dict` ("equivalent to `GetterDict` in pydantic v1"):
synthesize a dict from the non-underscore attributes of an object. -/
def instance_as_dict (v : PyAny) : Except String (List (PyAny × PyAny)) :=
  instance_attrs_as_dict (pyDir v)

/-- `strict_dict`: only an actual dict. -/
def strict_dict (v : PyAny) : ValResult GenericMapping :=
  match cast_PyDict v with
  | some entries => .ok entries
  | Option.none => err_val_error .DictType v

/-- `lax_dict`: dict, then mapping (a mid-iteration failure becomes a
`DictFromMapping` error echoing the original value), then — only when
`tryInstance` is set — attribute reflection, re-entering `lax_dict` on the
synthesized dict with reflection disabled. -/
def lax_dict (v : PyAny) (tryInstance : Bool) : ValResult GenericMapping :=
  match cast_PyDict v with
  | some entries => .ok entries
  | Option.none =>
    match cast_PyMapping v with
    | some items =>
      match mapping_as_dict items with
      | .ok entries => .ok entries
      | .error err => .error (.lineError ⟨.DictFromMapping, some err, v⟩)
    | Option.none =>
      if tryInstance then
        match instance_as_dict v with
        | .ok entries => lax_dict (.dict entries) false
        | .error err => .error (.lineError ⟨.DictFromObject, some err, v⟩)
      else err_val_error .DictType v
termination_by (cond tryInstance 1 0)
decreasing_by simp_all

/-- `strict_list`: only an actual list. -/
def strict_list (v : PyAny) : ValResult GenericSequence :=
  match v with
  | .list xs => .ok (.list xs)
  | _ => err_val_error .ListType v

/-- `lax_list`: list, then tuple, then set, then frozenset. -/
def lax_list (v : PyAny) : ValResult GenericSequence :=
  match v with
  | .list xs => .ok (.list xs)
  | .tuple xs => .ok (.tuple xs)
  | .set xs => .ok (.set xs)
  | .frozenset xs => .ok (.frozenset xs)
  | _ => err_val_error .ListType v

/-- `strict_set`: only an actual set. -/
def strict_set (v : PyAny) : ValResult GenericSequence :=
  match v with
  | .set xs => .ok (.set xs)
  | _ => err_val_error .SetType v

/-- `lax_set`: set, then list, then tuple, then frozenset. -/
def lax_set (v : PyAny) : ValResult GenericSequence :=
  match v with
  | .set xs => .ok (.set xs)
  | .list xs => .ok (.list xs)
  | .tuple xs => .ok (.tuple xs)
  | .frozenset xs => .ok (.frozenset xs)
  | _ => err_val_error .SetType v

/-- Modelled from the spec: a location item is either a string key or an
integer index (`src/errors/line_error.rs` is not among the sources). -/
inductive LocItem where
  | S (key : String)
  | I (index : Nat)
  deriving DecidableEq, Repr

/-- The `Display` of one location item. -/
def locItemRender : LocItem → String
  | .S key => key
  | .I index => toString index

/-- Modelled from the spec: the context is an ordered mapping from
message-parameter name to (rendered) value. -/
abbrev Context := List (String × String)

/-- Modelled from the spec: context rendering substitutes named placeholders
into the resolved template. -/
def contextRender (c : Context) (template : String) : String :=
  c.foldl (fun acc nv => acc.replace ("\x7b" ++ nv.1 ++ "\x7d") nv.2) template

/-- Modelled from the spec: the `Display` of a context (used for the
", context=" fragment of a rendered line). -/
def contextRepr (c : Context) : String :=
  String.intercalate ", " (c.map (fun nv => nv.1 ++ ": " ++ nv.2))

/-- Modelled from the spec: the stable machine-readable identifier of each
kind (`kind_name`), distinct per kind. -/
def ErrorKind.kindStr : ErrorKind → String
  | .StrType => "str_type"
  | .StrUnicode => "str_unicode"
  | .BoolType => "bool_type"
  | .BoolParsing => "bool_parsing"
  | .IntType => "int_type"
  | .IntParsing => "int_parsing"
  | .FloatType => "float_type"
  | .FloatParsing => "float_parsing"
  | .DictType => "dict_type"
  | .DictFromMapping => "dict_from_mapping"
  | .DictFromObject => "dict_from_object"
  | .ListType => "list_type"
  | .SetType => "set_type"

/-- Modelled from the spec: every kind has exactly one default message
template (`get_message` never returns `None` in the model, per the spec
invariant). -/
def ErrorKind.getMessage : ErrorKind → Option String
  | .StrType => some "value is not a valid string"
  | .StrUnicode => some "value is not valid unicode"
  | .BoolType => some "value is not a valid boolean"
  | .BoolParsing => some "value could not be parsed to a boolean"
  | .IntType => some "value is not a valid integer"
  | .IntParsing => some "value could not be parsed to an integer"
  | .FloatType => some "value is not a valid float"
  | .FloatParsing => some "value could not be parsed to a float"
  | .DictType => some "value is not a valid dict"
  | .DictFromMapping => some "unable to convert mapping to a dict"
  | .DictFromObject => some "unable to convert object to a dict"
  | .ListType => some "value is not a valid list"
  | .SetType => some "value is not a valid set"

/-- Python float `repr` (host hook): unlike Rust's `Display`, whole floats
keep a trailing ".0". -/
def pyFloatRepr (q : Rat) : String :=
  if q.den = 1 then floatToString q ++ ".0" else floatToString q

mutual

/-- Host `repr()` hook (spec section 6: "an optional richer
textual/introspective form", consumed but not implemented by the core):
CPython-style textual form of a value.  Opaque objects render as a fixed
placeholder. -/
def pyRepr : PyAny → String
  | .none => "None"
  | .bool true => "True"
  | .bool false => "False"
  | .int i => toString i
  | .float q => pyFloatRepr q
  | .str s => "'" ++ s ++ "'"
  | .bytes bs => "<" ++ toString bs.length ++ " bytes>"
  | .dict entries => "\x7b" ++ String.intercalate ", " (pyReprPairs entries) ++ "\x7d"
  | .mapping _ => "<mapping>"
  | .list xs => "[" ++ String.intercalate ", " (pyReprList xs) ++ "]"
  | .tuple xs => "(" ++ String.intercalate ", " (pyReprList xs) ++ ")"
  | .set xs => "\x7b" ++ String.intercalate ", " (pyReprList xs) ++ "\x7d"
  | .frozenset xs => "frozenset([" ++ String.intercalate ", " (pyReprList xs) ++ "])"
  | .inst _ => "<object>"

/-- `repr` of each element of a list. -/
def pyReprList : List PyAny → List String
  | [] => []
  | x :: rest => pyRepr x :: pyReprList rest

/-- `repr` of each key/value pair of a dict. -/
def pyReprPairs : List (PyAny × PyAny) → List String
  | [] => []
  | (k, v) :: rest => (pyRepr k ++ ": " ++ pyRepr v) :: pyReprPairs rest

end

/-- Host `str()` hook (`PyObject::to_string`): like `repr` except that a
string renders as itself, unquoted. -/
def pyStr (v : PyAny) : String :=
  match v with
  | .str s => s
  | _ => pyRepr v

/-- Host `get_type().name()` hook. -/
def typeName : PyAny → String
  | .none => "NoneType"
  | .bool _ => "bool"
  | .int _ => "int"
  | .float _ => "float"
  | .str _ => "str"
  | .bytes _ => "bytes"
  | .dict _ => "dict"
  | .mapping _ => "Mapping"
  | .list _ => "list"
  | .tuple _ => "tuple"
  | .set _ => "set"
  | .frozenset _ => "frozenset"
  | .inst _ => "object"

/-- UTF-8 width in bytes of one character. -/
def utf8Width (c : Char) : Nat :=
  if c.toNat < 0x80 then 1
  else if c.toNat < 0x800 then 2
  else if c.toNat < 0x10000 then 3
  else 4

/-- UTF-8 byte length of a character list — Rust's `str::len`. -/
def utf8Length (cs : List Char) : Nat :=
  (cs.map utf8Width).sum

/-- Rust byte slice `&s[0..n]`: `some` of the first `n` bytes' characters
when byte position `n` is a character boundary within the string, `none`
(panic) otherwise. -/
def byteTake (n : Nat) (cs : List Char) : Option (List Char) :=
  if n = 0 then some []
  else
    match cs with
    | [] => Option.none
    | c :: rest =>
      if utf8Width c ≤ n then (byteTake (n - utf8Width c) rest).map (fun l => c :: l)
      else Option.none

/-- Rust byte slice `&s[n..]`: `some` of the characters after the first `n`
bytes when byte position `n` is a character boundary within the string,
`none` (panic) otherwise. -/
def byteDrop (n : Nat) (cs : List Char) : Option (List Char) :=
  if n = 0 then some cs
  else
    match cs with
    | [] => Option.none
    | c :: rest =>
      if utf8Width c ≤ n then byteDrop (n - utf8Width c) rest
      else Option.none

/-- The `truncate_input_value!` macro: `$value.len()` is the UTF-8 byte
length, and the two slices are byte slices at offsets 25 and `len - 24`;
`none` models the byte-slice panic when an offset falls inside a multi-byte
character. -/
def truncate_input_value (value : String) : Option String :=
  let cs := value.data
  if utf8Length cs > 50 then
    match byteTake 25 cs, byteDrop (utf8Length cs - 24) cs with
    | some a, some b => some (", input_value=" ++ String.mk a ++ "..." ++ String.mk b)
    | _, _ => Option.none
  else some (", input_value=" ++ value)

/-- `PyLineError`: the public form of a line error. -/
structure PyLineError where
  kind : ErrorKind
  location : List LocItem
  message : Option String
  input_value : PyAny
  context : Context

/-- `raw_message`: the override if set, else the kind's default message,
else the kind identifier. -/
def PyLineError.raw_message (e : PyLineError) : String :=
  match e.message with
  | some m => m
  | Option.none =>
    match e.kind.getMessage with
    | some m => m
    | Option.none => e.kind.kindStr

/-- `message`: the raw message, with context substituted when the context is
non-empty. -/
def PyLineError.messageStr (e : PyLineError) : String :=
  let raw := e.raw_message
  if e.context.isEmpty then raw else contextRender e.context raw

/-- `pretty`: the rendered body of one line error.  `py = true` is the
`Some(py)` path (host `repr` of the input, then ", input_type="); `py =
false` is the `None` path (host `to_string` of the input).  `none` models
the truncation panic propagating out. -/
def PyLineError.pretty (e : PyLineError) (py : Bool) : Option String :=
  let loc :=
    if e.location.isEmpty then ""
    else String.intercalate " -> " (e.location.map locItemRender) ++ "\n"
  let head := loc ++ "  " ++ e.messageStr ++ " [kind=" ++ e.kind.kindStr
  let head := if e.context.isEmpty then head else head ++ ", context=" ++ contextRepr e.context
  if py then
    match truncate_input_value (pyRepr e.input_value) with
    | some t => some (head ++ t ++ ", input_type=" ++ typeName e.input_value ++ "]")
    | Option.none => Option.none
  else
    match truncate_input_value (pyStr e.input_value) with
    | some t => some (head ++ t ++ "]")
    | Option.none => Option.none

/-- `ValidationError`: the aggregator. -/
structure ValidationError where
  line_errors : List PyLineError
  title : String

/-- `py_new`: the `#[new]` constructor stores the line errors and title as
given — no non-emptiness check. -/
def ValidationError.py_new (line_errors : List PyLineError) (title : String) : ValidationError :=
  ⟨line_errors, title⟩

/-- `error_count`. -/
def ValidationError.error_count (ve : ValidationError) : Nat :=
  ve.line_errors.length

/-- Rust `collect::<Result<Vec<_>, _>>()`: short-circuits at the first
error. -/
def collectResults : List (Except String String) → Except String (List String)
  | [] => .ok []
  | .error e :: _ => .error e
  | .ok s :: rest => (collectResults rest).map (fun l => s :: l)

/-- Lines 52-58 of `display`: collect the per-line rendering results; if any
line failed, `unwrap_or_else` replaces the whole vector with a single
diagnostic placeholder; join with newline. -/
def displayBody (results : List (Except String String)) : String :=
  match collectResults results with
  | .ok lines => String.intercalate "\n" lines
  | .error err => "[error formatting line errors: " ++ err ++ "]"

/-- The `map(|i| i.pretty(py))` pass of `display`: renders each line error
in order; a truncation panic in any line propagates (`none`). -/
def prettyAll (lines : List PyLineError) (py : Bool) : Option (List String) :=
  match lines with
  | [] => some []
  | e :: rest =>
    match e.pretty py with
    | some s => (prettyAll rest py).map (fun l => s :: l)
    | Option.none => Option.none

/-- `display`: header with count and singular/plural selected by
`count == 1`, then newline, then the joined bodies.  In the source each
`pretty` returns `Result<String, fmt::Error>`; writes into a `String` never
return `Err`, so in the model the only failure mode of `pretty` is the
truncation panic, which propagates out of the whole `display` (`none`). -/
def ValidationError.display (ve : ValidationError) (py : Bool) : Option String :=
  match prettyAll ve.line_errors py with
  | some pretties =>
    let count := ve.line_errors.length
    let plural := if count == 1 then "" else "s"
    some (toString count ++ " validation error" ++ plural ++ " for " ++ ve.title ++ "\n"
      ++ displayBody (pretties.map Except.ok))
  | Option.none => Option.none

/-- One structured record of `errors()` (`as_dict`): kind identifier,
location, rendered message, echoed value, and the context only when
non-empty. -/
structure ErrorRecord where
  kind : String
  loc : List LocItem
  message : String
  input_value : PyAny
  context : Option Context

/-- `as_dict` of one line error. -/
def PyLineError.as_dict (e : PyLineError) : ErrorRecord :=
  ⟨e.kind.kindStr, e.location, e.messageStr, e.input_value,
    if e.context.isEmpty then Option.none else some e.context⟩

/-- `errors()`: one record per line error, order-preserving. -/
def ValidationError.errors (ve : ValidationError) : List ErrorRecord :=
  ve.line_errors.map PyLineError.as_dict

/-- The seven strict target types named by the spec's strict-coercion
claim. -/
inductive Target where
  | str
  | bool
  | int
  | float
  | dict
  | list
  | set
  deriving DecidableEq, Repr

/-- Spec-side definition, following the claim's words: "the value's
capability is exactly T" — the value's variant is the target type itself. -/
def exactCapability (v : PyAny) (t : Target) : Bool :=
  match v, t with
  | .str _, .str => true
  | .bool _, .bool => true
  | .int _, .int => true
  | .float _, .float => true
  | .dict _, .dict => true
  | .list _, .list => true
  | .set _, .set => true
  | _, _ => false

/-- The `*Type` failure kind of each strict target. -/
def kindOf : Target → ErrorKind
  | .str => .StrType
  | .bool => .BoolType
  | .int => .IntType
  | .float => .FloatType
  | .dict => .DictType
  | .list => .ListType
  | .set => .SetType

/-- The error of a `ValResult`, if it is one. -/
def exceptErr : Except ValError α → Option ValError
  | .error e => some e
  | .ok _ => Option.none

/-- Whether the source's strict coercion to the given target succeeds. -/
def strictOk (t : Target) (v : PyAny) : Bool :=
  match t with
  | .str => (strict_str v).isOk
  | .bool => (strict_bool v).isOk
  | .int => (strict_int v).isOk
  | .float => (strict_float v).isOk
  | .dict => (strict_dict v).isOk
  | .list => (strict_list v).isOk
  | .set => (strict_set v).isOk

/-- The error produced by the source's strict coercion, if any. -/
def strictErr (t : Target) (v : PyAny) : Option ValError :=
  match t with
  | .str => exceptErr (strict_str v)
  | .bool => exceptErr (strict_bool v)
  | .int => exceptErr (strict_int v)
  | .float => exceptErr (strict_float v)
  | .dict => exceptErr (strict_dict v)
  | .list => exceptErr (strict_list v)
  | .set => exceptErr (strict_set v)

/-- Spec-side definition, amended to what the code does: exact type match,
except that strict float also accepts ints (float extraction is the host's
numeric conversion) and strict int only accepts ints representable in
signed 64 bits. -/
def strictAccepts (t : Target) (v : PyAny) : Bool :=
  match t, v with
  | .str, .str _ => true
  | .bool, .bool _ => true
  | .int, .int i => decide (i64Min ≤ i ∧ i ≤ i64Max)
  | .float, .float _ => true
  | .float, .int _ => true
  | .dict, .dict _ => true
  | .list, .list _ => true
  | .set, .set _ => true
  | _, _ => false

/-- A 26-character, 52-byte text (each 'é' is 2 UTF-8 bytes): byte offset 25
falls inside the 13th character. -/
def multibyteText : String :=
  String.mk (List.replicate 26 'é')

/-- A line error whose echoed value's textual form is `multibyteText`. -/
def multibyteLine : PyLineError :=
  ⟨.StrType, [], Option.none, .str multibyteText, []⟩

/-- A line error that renders without incident. -/
def benignLine : PyLineError :=
  ⟨.StrType, [], some "m1", .str "x", []⟩

/-- A second benign line error. -/
def benignLine2 : PyLineError :=
  ⟨.IntType, [], some "m2", .int 3, []⟩

/-- A 50-character, 51-byte text: 25 ASCII, one 2-byte character, 24
ASCII. -/
def fiftyCharText : String :=
  String.mk (List.replicate 25 'a' ++ 'é' :: List.replicate 24 'a')

theorem utf8Width_ascii {c : Char} (h : c.toNat < 128) : utf8Width c = 1 := by
  simp [utf8Width, h]

theorem utf8Length_ascii (cs : List Char) (h : ∀ c ∈ cs, c.toNat < 128) :
    utf8Length cs = cs.length := by
  induction cs with
  | nil => rfl
  | cons c rest ih =>
    have hc : utf8Width c = 1 := utf8Width_ascii (h c (by simp))
    simp [utf8Length] at ih ⊢
    rw [hc, ih fun x hx => h x (by simp [hx])]
    omega

theorem byteTake_ascii (cs : List Char) (n : Nat) (h : ∀ c ∈ cs, c.toNat < 128)
    (hn : n ≤ cs.length) : byteTake n cs = some (cs.take n) := by
  induction cs generalizing n with
  | nil =>
    have : n = 0 := by simpa using hn
    subst this
    rfl
  | cons c rest ih =>
    rcases Nat.eq_zero_or_pos n with h0 | hpos
    · subst h0; rfl
    · obtain ⟨m, rfl⟩ := Nat.exists_eq_succ_of_ne_zero (Nat.pos_iff_ne_zero.mp hpos)
      have hc : utf8Width c = 1 := utf8Width_ascii (h c (by simp))
      rw [byteTake, if_neg (by omega)]
      simp only [hc]
      rw [if_pos (by omega)]
      have := ih m (fun x hx => h x (by simp [hx])) (by simpa using hn)
      simp [this]

theorem byteDrop_ascii (cs : List Char) (n : Nat) (h : ∀ c ∈ cs, c.toNat < 128)
    (hn : n ≤ cs.length) : byteDrop n cs = some (cs.drop n) := by
  induction cs generalizing n with
  | nil =>
    have : n = 0 := by simpa using hn
    subst this
    rfl
  | cons c rest ih =>
    rcases Nat.eq_zero_or_pos n with h0 | hpos
    · subst h0; rfl
    · obtain ⟨m, rfl⟩ := Nat.exists_eq_succ_of_ne_zero (Nat.pos_iff_ne_zero.mp hpos)
      have hc : utf8Width c = 1 := utf8Width_ascii (h c (by simp))
      rw [byteDrop, if_neg (by omega)]
      simp only [hc]
      rw [if_pos (by omega)]
      have := ih m (fun x hx => h x (by simp [hx])) (by simpa using hn)
      simp [this]

theorem stringMk_length (l : List Char) : (String.mk l).length = l.length := rfl

theorem strict_int_int (i : Int) :
    strict_int (.int i) = if i64Min ≤ i ∧ i ≤ i64Max then .ok i
      else .error (.lineError ⟨.IntType, Option.none, .int i⟩) := by
  by_cases hp : i64Min ≤ i ∧ i ≤ i64Max <;>
    simp [strict_int, extract_bool, extract_i64, hp, err_val_error]

theorem collectResults_map_ok (l : List String) :
    collectResults (l.map Except.ok) = .ok l := by
  induction l with
  | nil => rfl
  | cons x rest ih => simp [collectResults, ih, Except.map]

theorem collectResults_first_error (pre post : List (Except String String)) (err : String)
    (h : ∀ r ∈ pre, r.isOk = true) :
    collectResults (pre ++ Except.error err :: post) = .error err := by
  induction pre with
  | nil => rfl
  | cons r rest ih =>
    match r with
    | .error e =>
      have := h (.error e) (by simp)
      simp [Except.isOk, Except.toBool] at this
    | .ok s =>
      have := ih fun x hx => h x (by simp [hx])
      simp [collectResults, this, Except.map]

theorem prettyAll_none_of_mem (lines : List PyLineError) (py : Bool)
    (h : ∃ e ∈ lines, e.pretty py = Option.none) : prettyAll lines py = Option.none := by
  induction lines with
  | nil => simp at h
  | cons x rest ih =>
    obtain ⟨a, ha, hfa⟩ := h
    rcases List.mem_cons.mp ha with rfl | hmem
    · simp [prettyAll, hfa]
    · rcases hx : a.pretty py with _ | y
      · rcases hx2 : x.pretty py with _ | z
        · simp [prettyAll, hx2]
        · simp [prettyAll, hx2, ih ⟨a, hmem, hfa⟩]
      · simp [hfa] at hx

/-- C1 counterexample: the claim says lax int and lax float coercion of
`True` fail with the `*Type` kind, but both branches start with the host
numeric extraction, which accepts booleans: `lax_int(True)` returns 1 and
`lax_float(True)` returns 1.0. -/
theorem C1_counterexample :
    lax_int (PyAny.bool true) = .ok 1 ∧ lax_float (PyAny.bool true) = .ok 1 :=
  ⟨rfl, rfl⟩

/-- C1 (amended): for every boolean, strict int and strict float coercion
fail with `IntType` / `FloatType` (the explicit bool check comes first), but
lax int and lax float coercion accept the boolean via integer-subtyping,
returning 1/0 and 1.0/0.0. -/
theorem C1_bool_numeric (b : Bool) :
    strict_int (PyAny.bool b) = .error (.lineError ⟨.IntType, Option.none, .bool b⟩) ∧
    strict_float (PyAny.bool b) = .error (.lineError ⟨.FloatType, Option.none, .bool b⟩) ∧
    lax_int (PyAny.bool b) = .ok (if b then 1 else 0) ∧
    lax_float (PyAny.bool b) = .ok (if b then 1 else 0) := by
  cases b <;> exact ⟨rfl, rfl, rfl, rfl⟩

/-- C2: rendering is not total — the truncation macro slices the echoed
value's textual form at byte offsets 25 and `len - 24`, and on a 52-byte
form made of 26 two-byte characters offset 25 falls inside a character, so
the slice panics (modelled as `none`); `pretty` propagates the panic on both
the repr and the to-string paths, although the text is only 26 characters
long. -/
theorem C2_truncation_panic :
    truncate_input_value multibyteText = Option.none ∧
    PyLineError.pretty multibyteLine false = Option.none ∧
    PyLineError.pretty multibyteLine true = Option.none ∧
    multibyteText.length = 26 :=
  ⟨rfl, rfl, rfl, rfl⟩

/-- C3 counterexample: with two line errors, the first of which renders fine
and the second of which hits the truncation panic, `display` fails as a
whole (`none`): the first line's rendered text is not emitted and no
placeholder is substituted, contradicting the claim that one line's failure
never discards the remaining lines and never fails the whole aggregator. -/
theorem C3_counterexample :
    PyLineError.pretty benignLine false = some "  m1 [kind=str_type, input_value=x]" ∧
    ValidationError.display ⟨[benignLine, multibyteLine], "T"⟩ false = Option.none :=
  ⟨rfl, rfl⟩

/-- C3 (amended): if rendering any individual line error returns a
formatting error, `display` replaces the entire body — not just that line —
with a single diagnostic placeholder built from the first error,
discarding every successfully rendered line; and if rendering a line
panics (truncation), the whole `display` fails. -/
theorem C3_display_failure_modes :
    (∀ (pre post : List (Except String String)) (err : String),
      (∀ r ∈ pre, r.isOk = true) →
      displayBody (pre ++ Except.error err :: post) =
        "[error formatting line errors: " ++ err ++ "]") ∧
    (∀ (ve : ValidationError) (py : Bool),
      (∃ e ∈ ve.line_errors, e.pretty py = Option.none) →
      ve.display py = Option.none) := by
  constructor
  · intro pre post err h
    simp [displayBody, collectResults_first_error pre post err h]
  · intro ve py h
    simp [ValidationError.display, prettyAll_none_of_mem _ _ h]

/-- C3 witness: the amended behaviours at concrete inputs — a good line
followed by a formatting error collapses the body to the placeholder, and a
panicking line fails the whole render. -/
theorem C3_witness :
    displayBody [Except.ok "a", Except.error "boom"] =
      "[error formatting line errors: " ++ "boom" ++ "]" ∧
    ValidationError.display ⟨[benignLine, multibyteLine], "W"⟩ false = Option.none :=
  ⟨C3_display_failure_modes.1 [Except.ok "a"] [] "boom" (by decide),
   C3_display_failure_modes.2 ⟨[benignLine, multibyteLine], "W"⟩ false
     ⟨multibyteLine, by simp, rfl⟩⟩

/-- C5: lax string coercion renders the integer 42 as "42" and the float
3/2 (= 1.5) as "1.5", and rejects every boolean with `StrType` — the
explicit bool check sits before the int and float fallbacks. -/
theorem C5_lax_str :
    lax_str (PyAny.int 42) = .ok "42" ∧
    lax_str (PyAny.float (mkRat 3 2)) = .ok "1.5" ∧
    (mkRat 3 2 : Rat) = 3 / 2 ∧
    ∀ b : Bool, lax_str (PyAny.bool b) = .error (.lineError ⟨.StrType, Option.none, .bool b⟩) := by
  refine ⟨rfl, rfl, by norm_num [mkRat, Rat.normalize], ?_⟩
  intro b
  cases b <;> rfl

/-- C4 counterexample: a value whose textual form is exactly 50 characters
(25 ASCII, one two-byte character, 24 ASCII — 51 UTF-8 bytes) is NOT shown
in full: the 50-byte threshold fires and the output keeps the first 25 and
last 24 bytes, dropping the multi-byte character entirely. -/
theorem C4_counterexample :
    fiftyCharText.length = 50 ∧
    truncate_input_value fiftyCharText =
      some (", input_value=" ++ String.mk (List.replicate 25 'a') ++ "..."
        ++ String.mk (List.replicate 24 'a')) ∧
    ", input_value=" ++ fiftyCharText ≠
      ", input_value=" ++ String.mk (List.replicate 25 'a') ++ "..."
        ++ String.mk (List.replicate 24 'a') :=
  ⟨rfl, rfl, by decide⟩

/-- C4 (amended): the 50 threshold and the 25/24 split are measured in UTF-8
bytes, not characters; on ASCII text — where bytes and characters coincide —
the claim's statement holds: shown in full at up to 50 characters, first 25
plus "..." plus last 24 (52 characters exactly) above 50. -/
theorem C4_truncation_bytes (s : String) (hascii : ∀ c ∈ s.data, c.toNat < 128) :
    (s.data.length ≤ 50 → truncate_input_value s = some (", input_value=" ++ s)) ∧
    (50 < s.data.length →
      truncate_input_value s =
        some (", input_value=" ++ String.mk (s.data.take 25) ++ "..."
          ++ String.mk (s.data.drop (s.data.length - 24))) ∧
      (String.mk (s.data.take 25) ++ "..."
        ++ String.mk (s.data.drop (s.data.length - 24))).data.length = 52) := by
  have hlen : utf8Length s.data = s.data.length := utf8Length_ascii s.data hascii
  constructor
  · intro h50
    rw [truncate_input_value]
    simp only [hlen]
    rw [if_neg (by omega)]
  · intro h50
    have ht : byteTake 25 s.data = some (s.data.take 25) :=
      byteTake_ascii s.data 25 hascii (by omega)
    have hd : byteDrop (s.data.length - 24) s.data = some (s.data.drop (s.data.length - 24)) :=
      byteDrop_ascii s.data (s.data.length - 24) hascii (by omega)
    constructor
    · rw [truncate_input_value]
      simp only [hlen]
      rw [if_pos (by omega), ht, hd]
    · have h3 : ("..." : String).data.length = 3 := rfl
      have hdata : (String.mk (s.data.take 25) ++ "..."
          ++ String.mk (s.data.drop (s.data.length - 24))).data =
          s.data.take 25 ++ ("..." : String).data ++ s.data.drop (s.data.length - 24) := by
        simp
      rw [hdata]
      simp only [List.length_append, List.length_take, List.length_drop, h3]
      omega

/-- C4 witness: on a 51-character ASCII value the amended byte-based rule
truncates to first 25 plus "..." plus last 24, 52 characters in total. -/
theorem C4_witness :
    truncate_input_value (String.mk (List.replicate 51 'a')) =
      some (", input_value=" ++ String.mk ((List.replicate 51 'a').take 25) ++ "..."
        ++ String.mk ((List.replicate 51 'a').drop (51 - 24))) ∧
    (String.mk ((List.replicate 51 'a').take 25) ++ "..."
      ++ String.mk ((List.replicate 51 'a').drop (51 - 24))).data.length = 52 :=
  (C4_truncation_bytes (String.mk (List.replicate 51 'a')) (by decide)).2 (by decide)

/-- C6 counterexample: strict float coercion of the integer 42 succeeds
(returning 42.0) even though the value's capability is int, not float — the
claim requires it to fail with `FloatType`.  Host float extraction
(`PyFloat_AsDouble`) accepts integers. -/
theorem C6_counterexample :
    strict_float (PyAny.int 42) = .ok 42 ∧
    exactCapability (PyAny.int 42) Target.float = false :=
  ⟨rfl, rfl⟩

/-- C6 (amended): strict coercion succeeds exactly on `strictAccepts` — an
exact type match, except that strict float also accepts ints and strict int
only accepts ints representable in signed 64 bits; every failure carries the
target's `*Type` kind and the offending value; successes preserve the
value. -/
theorem C6_strict_exact :
    (∀ (v : PyAny) (t : Target), strictOk t v = strictAccepts t v) ∧
    (∀ (v : PyAny) (t : Target), strictAccepts t v = false →
      strictErr t v = some (.lineError ⟨kindOf t, Option.none, v⟩)) ∧
    (∀ s, strict_str (.str s) = .ok s) ∧
    (∀ b, strict_bool (.bool b) = .ok b) ∧
    (∀ i : Int, i64Min ≤ i ∧ i ≤ i64Max → strict_int (.int i) = .ok i) ∧
    (∀ q, strict_float (.float q) = .ok q) ∧
    (∀ i : Int, strict_float (.int i) = .ok (i : Rat)) ∧
    (∀ es, strict_dict (.dict es) = .ok es) ∧
    (∀ xs, strict_list (.list xs) = .ok (.list xs)) ∧
    (∀ xs, strict_set (.set xs) = .ok (.set xs)) := by
  refine ⟨?_, ?_, fun s => rfl, fun b => rfl, ?_, fun q => rfl, fun i => rfl,
    fun es => rfl, fun xs => rfl, fun xs => rfl⟩
  · intro v t
    cases t <;> cases v <;>
      simp [strictOk, strictAccepts, strict_str, strict_bool, strict_int,
        strict_float, strict_dict, strict_list, strict_set, cast_PyString, cast_PyDict,
        extract_bool, extract_i64, extract_f64, err_val_error, Except.isOk, Except.toBool] <;>
      (try (split_ifs at * <;> simp_all))
  · intro v t h
    cases t <;> cases v <;>
      simp_all [strictOk, strictAccepts, strict_str, strict_bool, strict_int,
        strict_float, strict_dict, strict_list, strict_set, cast_PyString, cast_PyDict,
        extract_bool, extract_i64, extract_f64, err_val_error, exceptErr, strictErr, kindOf] <;>
      (try (split_ifs at * <;> simp_all)) <;> (try omega)
  · intro i hi
    simp [strict_int, extract_bool, extract_i64, if_pos hi]

/-- C6 witness: the characterization at concrete inputs, in particular a
strict-float failure on a string carries `FloatType` and the echoed value,
and a small int strictly coerces to itself. -/
theorem C6_witness :
    strictErr Target.float (PyAny.str "x") =
      some (.lineError ⟨.FloatType, Option.none, .str "x"⟩) ∧
    strict_int (PyAny.int 5) = .ok 5 :=
  ⟨C6_strict_exact.2.1 (PyAny.str "x") Target.float (by rfl),
   C6_strict_exact.2.2.2.2.1 5 (by decide)⟩

theorem instance_attrs_as_dict_ok (attrs : List (String × PyAny)) :
    instance_attrs_as_dict (attrs.map (fun a => (a.1, Except.ok a.2))) =
      .ok ((attrs.filter (fun a => !a.1.startsWith "_")).map
        (fun a => (PyAny.str a.1, a.2))) := by
  induction attrs with
  | nil => rfl
  | cons kv rest ih =>
    by_cases h : kv.1.startsWith "_" <;>
      simp [instance_attrs_as_dict, h, ih, List.filter_cons, Except.map]

/-- C7: the attribute-reflection fallback fires only when enabled (with it
disabled, a non-mapping object fails with `DictType`); with it enabled, the
result is the synthesized mapping of exactly the non-underscore attributes,
with each attribute value carried over unchanged — even a reflectable
(`inst`) attribute value is not reflected again, so reflection never recurses
past one level. -/
theorem C7_reflection_one_level :
    (∀ attrs, lax_dict (PyAny.inst attrs) false =
      .error (.lineError ⟨.DictType, Option.none, .inst attrs⟩)) ∧
    (∀ attrs : List (String × PyAny),
      lax_dict (PyAny.inst (attrs.map (fun a => (a.1, Except.ok a.2)))) true =
        .ok ((attrs.filter (fun a => !a.1.startsWith "_")).map
          (fun a => (PyAny.str a.1, a.2)))) := by
  constructor
  · intro attrs
    simp [lax_dict, cast_PyDict, cast_PyMapping, err_val_error]
  · intro attrs
    rw [lax_dict]
    simp only [cast_PyDict, cast_PyMapping, instance_as_dict, pyDir,
      instance_attrs_as_dict_ok attrs]
    rw [lax_dict]
    simp [cast_PyDict]

theorem mapping_as_dict_err_of_mem (items : List (Except String (PyAny × PyAny)))
    (e : String) (h : Except.error e ∈ items) :
    ∃ msg, mapping_as_dict items = .error msg := by
  induction items with
  | nil => simp at h
  | cons x rest ih =>
    match x with
    | .error e2 => exact ⟨e2, rfl⟩
    | .ok kv =>
      have hmem : Except.error e ∈ rest := by
        rcases List.mem_cons.mp h with h1 | h1
        · exact absurd h1 (by simp)
        · exact h1
      obtain ⟨msg, hm⟩ := ih hmem
      exact ⟨msg, by simp [mapping_as_dict, hm, Except.map]⟩

/-- C8: if a mapping value's key/value iteration fails at any point, lax
mapping coercion returns a single `DictFromMapping` line error echoing the
original mapping value — never a partially populated mapping. -/
theorem C8_mapping_iteration_failure (ti : Bool)
    (items : List (Except String (PyAny × PyAny))) (e : String)
    (h : Except.error e ∈ items) :
    ∃ msg, lax_dict (PyAny.mapping items) ti =
      .error (.lineError ⟨.DictFromMapping, some msg, .mapping items⟩) := by
  obtain ⟨msg, hm⟩ := mapping_as_dict_err_of_mem items e h
  exact ⟨msg, by rw [lax_dict]; simp [cast_PyDict, cast_PyMapping, hm]⟩

/-- C8 witness: an iteration that yields one good pair and then raises
produces the `DictFromMapping` error echoing the whole mapping. -/
theorem C8_witness :
    ∃ msg, lax_dict (PyAny.mapping [Except.ok (PyAny.str "k", PyAny.int 1),
        Except.error "boom"]) true =
      .error (.lineError ⟨.DictFromMapping, some msg,
        .mapping [Except.ok (PyAny.str "k", PyAny.int 1), Except.error "boom"]⟩) :=
  C8_mapping_iteration_failure true _ "boom" (by simp)

/-- C9: when every line renders, `display` produces the header with the
count, the singular form exactly when the count is 1 and the plural form
otherwise, then a newline, then the rendered lines joined by newline in
their original order. -/
theorem C9_render_header (ve : ValidationError) (py : Bool) (bodies : List String)
    (h : prettyAll ve.line_errors py = some bodies) :
    ve.display py = some (toString ve.error_count ++ " validation error"
      ++ (if ve.error_count = 1 then "" else "s") ++ " for " ++ ve.title ++ "\n"
      ++ String.intercalate "\n" bodies) := by
  rw [ValidationError.display, h]
  simp only [displayBody, collectResults_map_ok, ValidationError.error_count]
  by_cases hc : ve.line_errors.length = 1 <;> simp [hc]

/-- C9 witness: a one-error aggregator renders the singular header, a
two-error aggregator the plural header with both bodies in order. -/
theorem C9_witness :
    ValidationError.display ⟨[benignLine], "X"⟩ false =
      some "1 validation error for X\n  m1 [kind=str_type, input_value=x]" ∧
    ValidationError.display ⟨[benignLine, benignLine2], "X"⟩ false =
      some "2 validation errors for X\n  m1 [kind=str_type, input_value=x]\n  m2 [kind=int_type, input_value=3]" := by
  constructor
  · rw [C9_render_header ⟨[benignLine], "X"⟩ false
      ["  m1 [kind=str_type, input_value=x]"] (by rfl)]
    rfl
  · rw [C9_render_header ⟨[benignLine, benignLine2], "X"⟩ false
      ["  m1 [kind=str_type, input_value=x]", "  m2 [kind=int_type, input_value=3]"] (by rfl)]
    rfl

/-- C10: the constructor accepts an empty list of line errors — no
non-emptiness check — and the resulting aggregator reports a count of 0, an
empty record list, and renders the plural header "0 validation errors for X"
followed by an empty body. -/
theorem C10_empty_aggregator (title : String) (py : Bool) :
    (ValidationError.py_new [] title).error_count = 0 ∧
    (ValidationError.py_new [] title).errors = [] ∧
    (ValidationError.py_new [] title).display py =
      some ("0 validation errors for " ++ title ++ "\n") := by
  refine ⟨rfl, rfl, ?_⟩
  show ValidationError.display ⟨[], title⟩ py = _
  have h1 : ValidationError.display ⟨[], title⟩ py =
      some (toString (([] : List PyLineError).length) ++ " validation error" ++ "s"
        ++ " for " ++ title ++ "\n" ++ "") := rfl
  have h2 : toString (([] : List PyLineError).length) = "0" := rfl
  rw [h1, h2]
  refine congrArg some ?_
  apply String.ext
  simp

end PydanticCore
